import Mathlib

/-!
# WeatherBoard — verification of the favorites/weather-caching core

A shallow embedding of the services layer of the WeatherBoard mobile client:

* `FavoritesUpdateService.updateAllFavorites` (filter / dedupe / batch update),
* `WeatherService` (`fetchWeatherFromApi` in-flight dedup, `getWeatherData`
  cache policy, `storePendingRequest`),
* `GeoService.searchCities`,
* `graphql.checkIfCityInFavorites` and the matching predicate used by
  `FavoritesService.toggleFavorite`.

JSON-encoded `metadata` strings are embedded as their parse result: an
`Option Meta` where `none` means `JSON.parse` threw.  JavaScript truthiness
tests on numbers/strings are modelled explicitly (`0`, `""`, absent are
falsy).  `updatedAt` strings are embedded as the numeric `Date` value their
parse yields, so `new Date(a) > new Date(b)` becomes `>` on `Nat`.
Asynchronous effects are embedded by explicit state passing; the effect
oracles (`geo`, `fetchW`, `upsertOk`, …) return `Option`/`Except` values,
with `none`/`.error` standing for a rejected promise.
-/

/-- `GeoService.City`: `{ name, lat, lon, country }`.  Coordinates are
embedded as integers; no claim computes with them. -/
structure City where
  name : String
  lat : Int
  lon : Int
  country : String
deriving DecidableEq, Repr

/-- Result of `JSON.parse(item.metadata)` restricted to the fields the
services read.  A missing field is `none`. -/
structure Meta where
  deleted : Option Bool
  weatherId : Option Nat
  lat : Option Int
  lon : Option Int
  country : Option String
deriving DecidableEq, Repr

/-- `FavoriteItem` from `FavoritesUpdateService` (the GraphQL record shape).
`metadata` is the parse result of the JSON string; `none` = parse failure.
`updatedAt` is the `Date` value of the timestamp string. -/
structure FavoriteItem where
  id : String
  name : String
  content : String
  metadata : Option Meta
  updatedAt : Nat
deriving DecidableEq, Repr

/-- JavaScript truthiness of an optional number (absent and `0` are falsy). -/
def truthyNat : Option Nat → Bool
  | none => false
  | some v => v != 0

/-- JavaScript truthiness filter for an optional number: a falsy value acts
like an unassigned variable. -/
def truthyInt : Option Int → Option Int
  | none => none
  | some v => if v = 0 then none else some v

/-- JavaScript truthiness filter for an optional string (`""` is falsy). -/
def truthyStr : Option String → Option String
  | none => none
  | some s => if s = "" then none else some s

/-- JavaScript `x || d` for an optional string (`""` and absent fall back). -/
def jsOr (x : Option String) (d : String) : String :=
  match x with
  | none => d
  | some s => if s = "" then d else s

/-- JavaScript `String.prototype.toLowerCase` for the ASCII names involved,
written over the character list so the kernel can evaluate it. -/
def String.lowerAscii (s : String) : String :=
  ⟨s.data.map Char.toLower⟩

/-- Association-list embedding of a JS object / `Map` used as a dictionary
(`weatherCache`, `timeCache`, `activeRequests`, `cityMap`). -/
def mapGet {β : Type} (m : List (String × β)) (k : String) : Option β :=
  match m with
  | [] => none
  | (k', v) :: rest => if k' = k then some v else mapGet rest k

/-- `m[k] = v` for the association-list map: overwrites in place, appends at
the end when the key is new (JS `Map` insertion-order semantics). -/
def mapSet {β : Type} (m : List (String × β)) (k : String) (v : β) :
    List (String × β) :=
  match m with
  | [] => [(k, v)]
  | (k', v') :: rest => if k' = k then (k, v) :: rest else (k', v') :: mapSet rest k v

/-- `delete m[k]` for the association-list map. -/
def eraseKey {β : Type} (m : List (String × β)) (k : String) : List (String × β) :=
  m.filter (fun p => p.1 != k)

/-- The filter of `updateAllFavorites` (part_000 lines 238–252): keep an item
iff its metadata parses and it is neither empty-content nor soft-deleted.
A parse failure skips the item ("skip it to be safe"). -/
def isValidItem (item : FavoriteItem) : Bool :=
  match item.metadata with
  | none => false
  | some m => !(item.content == "" || m.deleted == some true)

/-- Composite dedup key of `updateAllFavorites`:
`` `${item.name.toLowerCase()}-${metadata.weatherId || 0}` `` when the
metadata parses, and just the lowercase name in the `catch` branch. -/
def compositeKey (item : FavoriteItem) : String :=
  match item.metadata with
  | some m => item.name.lowerAscii ++ "-" ++ toString (m.weatherId.getD 0)
  | none => item.name.lowerAscii

/-- One step of the dedup loop (part_000 lines 258–280): keep the stored
item unless the new one has a strictly later `updatedAt`. -/
def dedupeStep (m : List (String × FavoriteItem)) (item : FavoriteItem) :
    List (String × FavoriteItem) :=
  let key := compositeKey item
  match mapGet m key with
  | none => mapSet m key item
  | some existing =>
      if existing.updatedAt < item.updatedAt then mapSet m key item else m

/-- The `cityMap` built by `updateAllFavorites` over the valid items. -/
def buildCityMap (items : List FavoriteItem) : List (String × FavoriteItem) :=
  items.foldl dedupeStep []

/-- `favorites = Array.from(cityMap.values())`: the candidate set of
`updateAllFavorites`, computed from the full remote list. -/
def candidates (allItems : List FavoriteItem) : List FavoriteItem :=
  (buildCityMap (allItems.filter isValidItem)).map Prod.snd

/-- `WeatherService.WeatherData` (forecast entries elided to their shape). -/
structure ForecastEntry where
  date : String
  temperature : Int
  icon : String
deriving DecidableEq, Repr

/-- The weather snapshot returned by `fetchWeatherFromApi`. -/
structure WeatherData where
  city : String
  temperature : Int
  conditions : String
  humidity : Int
  windSpeed : Int
  icon : String
  description : String
  weatherId : Nat
  lastUpdated : String
  forecast : List ForecastEntry
  lat : Option Int
  lon : Option Int
  country : Option String
deriving DecidableEq, Repr

/-- `graphql.FavoriteWeatherData`: the input shape of `saveFavoriteCity`
(the fields `updateAllFavorites` fills in; `id` present means update). -/
structure FavoriteWeatherData where
  id : Option String
  city : String
  temperature : Int
  conditions : String
  humidity : Int
  windSpeed : Int
  icon : String
  description : String
  weatherId : Nat
  lat : Option Int
  lon : Option Int
  country : Option String
deriving DecidableEq, Repr

/-- Cache key of `WeatherService`: `` `${city.name}-${city.country}` ``. -/
def cityKey (city : City) : String :=
  city.name ++ "-" ++ city.country

/-- Observable effects of one `updateAllFavorites` run: a geo search for a
name, a weather fetch for a cache key, an upsert of a record, and the
1-second inter-batch pause. -/
inductive Event where
  | geoSearch (name : String)
  | weatherFetch (key : String)
  | upsertRecord (data : FavoriteWeatherData)
  | delay
deriving DecidableEq, Repr

/-- Discriminator for the pacing event. -/
def Event.isDelay : Event → Bool
  | .delay => true
  | _ => false

/-- Discriminator for weather-fetch events. -/
def Event.isWeatherFetch : Event → Bool
  | .weatherFetch _ => true
  | _ => false

/-- The geo extraction at the head of each candidate's pipeline
(part_000 lines 303–312): `if (metadata.lat) lat = metadata.lat` etc., so a
falsy (absent or zero/empty) field leaves the variable unassigned. -/
def metaGeo (favorite : FavoriteItem) : Option Int × Option Int × Option String :=
  match favorite.metadata with
  | some m => (truthyInt m.lat, truthyInt m.lon, truthyStr m.country)
  | none => (none, none, none)

/-- The geo-resolution step of a candidate's pipeline (part_000 lines
303–330): if either coordinate is falsy, call `getGeoDataForCity` (oracle
`geo`, returning the first `searchCities` result or `none` on no result or
error) and on `null` skip the candidate. -/
def resolveGeo (geo : String → Option City) (favorite : FavoriteItem) :
    Option (Int × Int × Option String) × List Event :=
  let g := metaGeo favorite
  if g.1.isNone || g.2.1.isNone then
    match geo favorite.name with
    | some c => (some (c.lat, c.lon, some c.country), [.geoSearch favorite.name])
    | none => (none, [.geoSearch favorite.name])
  else (some (g.1.getD 0, g.2.1.getD 0, g.2.2), [])

/-- The tail of a candidate's pipeline (part_000 lines 332–368): build the
`City`, fetch fresh weather (`fetchW`, `none` = rejection), build the
`FavoriteWeatherData` carrying the original `favorite.id`, and upsert
(`upsertOk` tells whether `saveFavoriteCity` succeeds). -/
def finishUpdate (fetchW : City → Option WeatherData)
    (upsertOk : FavoriteWeatherData → Bool) (favorite : FavoriteItem) :
    Option (Int × Int × Option String) × List Event → Bool × List Event
  | (none, evts) => (false, evts)
  | (some (lat, lon, countryOpt), evts) =>
    let city : City :=
      { name := favorite.name, lat := lat, lon := lon, country := jsOr countryOpt "Unknown" }
    match fetchW city with
    | none => (false, evts ++ [.weatherFetch (cityKey city)])
    | some wd =>
      let favoriteData : FavoriteWeatherData :=
        { id := some favorite.id, city := wd.city, temperature := wd.temperature,
          conditions := wd.conditions, humidity := wd.humidity, windSpeed := wd.windSpeed,
          icon := wd.icon, description := wd.description, weatherId := wd.weatherId,
          lat := wd.lat, lon := wd.lon, country := wd.country }
      (upsertOk favoriteData,
       evts ++ [.weatherFetch (cityKey city), .upsertRecord favoriteData])

/-- One candidate's update pipeline (part_000 lines 300–369).  Returns the
candidate's success flag and its effect trace; every failure is caught and
becomes `false`, as in the source's per-candidate `try`/`catch`. -/
def updateOneFavorite (geo : String → Option City) (fetchW : City → Option WeatherData)
    (upsertOk : FavoriteWeatherData → Bool) (favorite : FavoriteItem) :
    Bool × List Event :=
  finishUpdate fetchW upsertOk favorite (resolveGeo geo favorite)

/-- The batch slicing of `updateAllFavorites`
(`favorites.slice(i, i + 3)` for `i = 0, 3, 6, …`). -/
def chunksOf3 {α : Type} : List α → List (List α)
  | [] => []
  | [a] => [[a]]
  | [a, b] => [[a, b]]
  | a :: b :: c :: rest => [a, b, c] :: chunksOf3 rest

/-- One batch: run every candidate, join with `Promise.allSettled`, and
count the candidates that settled to `true` (part_000 lines 299–375). -/
def runBatch (geo : String → Option City) (fetchW : City → Option WeatherData)
    (upsertOk : FavoriteWeatherData → Bool) (batch : List FavoriteItem) :
    Nat × List Event :=
  let results := batch.map (updateOneFavorite geo fetchW upsertOk)
  ((results.filter (fun r => r.1)).length, results.flatMap (fun r => r.2))

/-- The batch loop: a 1-second `delay` after every batch except the last
(`if (i + batchSize < favorites.length)`, part_000 lines 377–380). -/
def runBatches (geo : String → Option City) (fetchW : City → Option WeatherData)
    (upsertOk : FavoriteWeatherData → Bool) :
    List (List FavoriteItem) → Nat × List Event
  | [] => (0, [])
  | [b] => runBatch geo fetchW upsertOk b
  | b :: b' :: rest =>
    let r := runBatch geo fetchW upsertOk b
    let r' := runBatches geo fetchW upsertOk (b' :: rest)
    (r.1 + r'.1, r.2 ++ [Event.delay] ++ r'.2)

/-- `updateAllFavorites` (part_000 lines 225–389).  `queryResult` is the
outcome of the initial `LIST_ITEMS` query (`.error` = rejection); the
top-level `catch` turns any such failure into a return of `0`.  Returns the
success count together with the run's effect trace. -/
def updateAllFavoritesRun (geo : String → Option City)
    (fetchW : City → Option WeatherData) (upsertOk : FavoriteWeatherData → Bool)
    (queryResult : Except Unit (List FavoriteItem)) : Nat × List Event :=
  match queryResult with
  | .error _ => (0, [])
  | .ok allItems =>
    let favorites := candidates allItems
    if favorites.length = 0 then (0, [])
    else runBatches geo fetchW upsertOk (chunksOf3 favorites)

/-- `CACHE_EXPIRATION = 60 * 60 * 1000` (one hour, in milliseconds). -/
def CACHE_EXPIRATION : Int := 60 * 60 * 1000

/-- The cache-expiry test of `getWeatherData` (part_001 lines 230–232):
`!lastFetchTime[cityKey] || (currentTime - lastFetchTime[cityKey] > CACHE_EXPIRATION) || forceRefresh`.
`lastFetch` is the map lookup; an absent entry and a stored `0` are both
falsy, and `currentTime - undefined` is `NaN`, which compares `false`. -/
def isCacheExpired (currentTime : Int) (lastFetch : Option Int) (forceRefresh : Bool) : Bool :=
  (match lastFetch with
   | none => true
   | some t => t == 0)
  || (match lastFetch with
      | none => false
      | some t => currentTime - t > CACHE_EXPIRATION)
  || forceRefresh

/-- The persisted state `getWeatherData` reads and writes: the
`weather_data` map, the `weather_last_fetch` map, and the
`weather_pending_requests` queue. -/
structure Caches where
  weatherCache : List (String × WeatherData)
  timeCache : List (String × Int)
  pendingRequests : List City
deriving DecidableEq, Repr

/-- `clearCityWeatherCache` (part_001 lines 311–335): delete the city's
entries, each guarded by a truthiness test on the stored value (a stored
timestamp `0` is falsy and is not deleted). -/
def clearCityWeatherCache (city : City) (st : Caches) : Caches :=
  let key := cityKey city
  let wc := match mapGet st.weatherCache key with
    | some _ => eraseKey st.weatherCache key
    | none => st.weatherCache
  let tc := match mapGet st.timeCache key with
    | some t => if t = 0 then st.timeCache else eraseKey st.timeCache key
    | none => st.timeCache
  { st with weatherCache := wc, timeCache := tc }

/-- The cache-population sequence after a successful fetch
(read map, set key, write back — for both maps). -/
def storeSnapshot (key : String) (fresh : WeatherData) (currentTime : Int)
    (st : Caches) : Caches :=
  { st with weatherCache := mapSet st.weatherCache key fresh,
            timeCache := mapSet st.timeCache key currentTime }

/-- `storePendingRequest` (part_001 lines 141–158): append the city unless
an entry with the same `name` and `country` is already queued. -/
def storePendingRequest (city : City) (pending : List City) : List City :=
  if pending.any (fun c => c.name == city.name && c.country == city.country) then
    pending
  else
    pending ++ [city]

/-- The body of `getWeatherData` (part_001 lines 224–306) up to, but not
including, its top-level `catch`.  `fetchResult` is the outcome
`fetchWeatherFromApi(city)` would deliver in this run (`none` = rejection).
Returns the updated persisted state and either the returned value or
`.error` for an uncaught exception escaping the body. -/
def getWeatherDataBody (isOnline : Bool) (currentTime : Int)
    (fetchResult : Option WeatherData) (city : City) (forceRefresh : Bool)
    (st : Caches) : Caches × Except Unit (Option WeatherData) :=
  let key := cityKey city
  let expired := isCacheExpired currentTime (mapGet st.timeCache key) forceRefresh
  if isOnline && expired then
    let st1 := if forceRefresh then clearCityWeatherCache city st else st
    match fetchResult with
    | some fresh => (storeSnapshot key fresh currentTime st1, .ok (some fresh))
    | none =>
      match mapGet st1.weatherCache key with
      | some cached => (st1, .ok (some cached))
      | none => (st1, .error ())
  else
    match mapGet st.weatherCache key with
    | none =>
      if !isOnline then
        ({ st with pendingRequests := storePendingRequest city st.pendingRequests },
         .ok none)
      else
        match fetchResult with
        | some fresh => (storeSnapshot key fresh currentTime st, .ok (some fresh))
        | none => (st, .error ())
    | some cached => (st, .ok (some cached))

/-- `getWeatherData` as its callers see it: the top-level `catch`
(part_001 lines 302–305) converts any escaped exception into a returned
`null`. -/
def getWeatherData (isOnline : Bool) (currentTime : Int)
    (fetchResult : Option WeatherData) (city : City) (forceRefresh : Bool)
    (st : Caches) : Caches × Option WeatherData :=
  match getWeatherDataBody isOnline currentTime fetchResult city forceRefresh st with
  | (st', .ok v) => (st', v)
  | (st', .error _) => (st', none)

/-- The module-level mutable state of `WeatherService` relevant to in-flight
deduplication: `activeRequests` maps a cache key to the identity of the
pending promise stored there; `issuedFetches` records, for the run, each
network request pair actually started. -/
structure WSState where
  active : List (String × Nat)
  nextId : Nat
  issuedFetches : List (String × Nat)
deriving DecidableEq, Repr

/-- The synchronous prefix of `fetchWeatherFromApi` (part_001 lines 48–70):
if `cityKey in activeRequests`, return the stored promise without touching
the network; otherwise start the request pair, register it under the key,
and return it.  The returned flag records whether a new network pair was
issued. -/
def fetchWeatherStart (s : WSState) (city : City) : WSState × Nat × Bool :=
  let key := cityKey city
  match mapGet s.active key with
  | some pid => (s, pid, false)
  | none =>
    let pid := s.nextId
    ({ active := s.active ++ [(key, pid)], nextId := pid + 1,
       issuedFetches := s.issuedFetches ++ [(key, pid)] }, pid, true)

/-- Outcome of an in-flight request settling. -/
inductive SettleOutcome where
  | success (w : WeatherData)
  | failure
deriving Repr

/-- Settling of the request registered by `fetchWeatherStart`: the success
path (line 127) and the `catch` path (line 132) both
`delete activeRequests[cityKey]`. -/
def fetchWeatherSettle (s : WSState) (city : City) (outcome : SettleOutcome) : WSState :=
  match outcome with
  | .success _ => { s with active := eraseKey s.active (cityKey city) }
  | .failure => { s with active := eraseKey s.active (cityKey city) }

/-- Provider payload of the current-conditions endpoint, restricted to the
fields `fetchWeatherFromApi` reads (temperatures already integral, so
`Math.round` is the identity on them). -/
structure CurrentData where
  temp : Int
  humidity : Int
  windSpeed : Int
  weatherMain : String
  weatherIcon : String
  weatherDescription : String
  id : Nat
  timezone : Int
  sunrise : Nat
  sunset : Nat
deriving DecidableEq, Repr

/-- One 3-hour entry of the forecast payload (`dt`, `main.temp`,
`weather[0].icon`). -/
structure ForecastApiEntry where
  dt : Nat
  temp : Int
  icon : String
deriving DecidableEq, Repr

/-- The forecast reduction (part_001 lines 92–99): keep every 8th entry,
take 5, format `dt * 1000` with the locale date formatter `fmt`. -/
def processForecast (fmt : Nat → String) (list : List ForecastApiEntry) :
    List ForecastEntry :=
  (((list.enum.filter (fun p => p.1 % 8 == 0)).take 5)).map
    (fun p => { date := fmt (p.2.dt * 1000), temperature := p.2.temp, icon := p.2.icon })

/-- The snapshot built by a successful `fetchWeatherFromApi(city)`
(part_001 lines 101–118).  `nowIso` is `new Date().toISOString()`. -/
def fetchWeatherResult (nowIso : String) (fmt : Nat → String) (city : City)
    (currentData : CurrentData) (forecastData : List ForecastApiEntry) : WeatherData :=
  { city := city.name
    temperature := currentData.temp
    conditions := currentData.weatherMain
    humidity := currentData.humidity
    windSpeed := currentData.windSpeed
    icon := currentData.weatherIcon
    description := currentData.weatherDescription
    weatherId := currentData.id
    lastUpdated := nowIso
    forecast := processForecast fmt forecastData
    lat := some city.lat
    lon := some city.lon
    country := some city.country }

/-- JavaScript `String.prototype.includes`: substring containment. -/
def strIncludes (s t : String) : Bool :=
  decide (List.IsInfix t.toList s.toList)

/-- Effects `searchCities` can perform: the connectivity probe and the
geocoding HTTP request. -/
inductive SearchEvent where
  | connectivityProbe
  | httpGet
deriving DecidableEq, Repr

/-- Outcome of the geocoding HTTP request: a non-ok status, a body that
fails to parse, or a parsed city list. -/
inductive GeoHttp where
  | httpError
  | ok (body : Option (List City))
deriving Repr

/-- `GeoService.searchCities` (GeoService.ts lines 23–56), with the
connectivity probe, the recent-searches store and the HTTP response as
inputs.  Returns the result list paired with the effects performed; the
whole `try` is wrapped in a `catch` returning `[]`. -/
def searchCities (isOnline : Bool) (recent : List City) (response : GeoHttp)
    (query : String) : List City × List SearchEvent :=
  if query.length < 2 then ([], [])
  else if !isOnline then
    (recent.filter (fun c => strIncludes c.name.lowerAscii query.lowerAscii),
     [.connectivityProbe])
  else
    match response with
    | .httpError => ([], [.connectivityProbe, .httpGet])
    | .ok none => ([], [.connectivityProbe, .httpGet])
    | .ok (some data) => (data, [.connectivityProbe, .httpGet])

/-- The per-item predicate of `checkIfCityInFavorites`
(graphql.ts lines 192–216).  Note the `catch` on the metadata parse falls
through to `return true` ("continue with the check"). -/
def checkItemMatches (cityName : String) (weatherId : Option Nat)
    (item : FavoriteItem) : Bool :=
  if item.name.lowerAscii != cityName.lowerAscii then false
  else
    match item.metadata with
    | some m =>
      if item.content == "" || m.deleted == some true then false
      else if truthyNat weatherId && truthyNat m.weatherId then
        m.weatherId == weatherId
      else true
    | none => true

/-- `checkIfCityInFavorites` (graphql.ts lines 180–224): `some` over the
listed items; a failed `LIST_ITEMS` query returns `false`. -/
def checkIfCityInFavorites (queryResult : Except Unit (List FavoriteItem))
    (cityName : String) (weatherId : Option Nat) : Bool :=
  match queryResult with
  | .error _ => false
  | .ok items => items.any (checkItemMatches cityName weatherId)

/-- The `matchingItems` predicate of `toggleFavorite`
(part_000 lines 79–105): name-or-weatherId match, with the deleted-skip
check in a separate `try` whose `catch` continues the check, so a parse
failure skips neither test. -/
def toggleMatches (weatherCity : String) (weatherId : Nat) (item : FavoriteItem) : Bool :=
  let nameMatches := item.name.lowerAscii == weatherCity.lowerAscii
  let weatherIdMatches :=
    match item.metadata with
    | some m =>
      if weatherId != 0 && truthyNat m.weatherId then m.weatherId == some weatherId
      else false
    | none => false
  let skip :=
    match item.metadata with
    | some m => item.content == "" || m.deleted == some true
    | none => false
  if skip then false else nameMatches || weatherIdMatches

/-- Concrete metadata used in the witnesses below. -/
def demoMeta : Meta :=
  { deleted := none, weatherId := some 10, lat := some 3, lon := some 4,
    country := some "FR" }

/-- A valid favorite record for `Paris` (witness input). -/
def itemParis1 : FavoriteItem :=
  { id := "p1", name := "Paris", content := "c", metadata := some demoMeta,
    updatedAt := 1 }

/-- A later duplicate of [`itemParis1`] with the same composite key. -/
def itemParis2 : FavoriteItem :=
  { id := "p2", name := "paris", content := "c", metadata := some demoMeta,
    updatedAt := 2 }

/-- A soft-deleted record (witness input for the filter). -/
def deletedDemoItem : FavoriteItem :=
  { id := "p3", name := "Paris", content := "x",
    metadata := some { demoMeta with deleted := some true }, updatedAt := 5 }

/-- A record whose metadata string fails to parse yet whose content is
empty: the counterexample input for the fail-closed claim. -/
def badItem : FavoriteItem :=
  { id := "b1", name := "paris", content := "", metadata := none, updatedAt := 0 }

/-- A favorite with a distinct composite key, indexed by a number so the
witnesses can enumerate five of them. -/
def demoFav (n : Nat) : FavoriteItem :=
  { id := toString n, name := "City" ++ toString n, content := "c",
    metadata := some { demoMeta with weatherId := some n }, updatedAt := n }

/-- Geo oracle for the witnesses: every name resolves. -/
def geoDemo : String → Option City :=
  fun n => some { name := n, lat := 7, lon := 8, country := "FR" }

/-- Weather oracle for the witnesses: every fetch succeeds. -/
def fetchDemo : City → Option WeatherData :=
  fun c =>
    some { city := c.name, temperature := 20, conditions := "Clear",
           humidity := 50, windSpeed := 5, icon := "01d",
           description := "clear sky", weatherId := 800, lastUpdated := "now",
           forecast := [], lat := some c.lat, lon := some c.lon,
           country := some c.country }

/-- Upsert oracle for the witnesses: fails exactly for record id `"2"`. -/
def upsertDemo : FavoriteWeatherData → Bool :=
  fun fd => fd.id != some "2"

/-- A concrete city for the cache/in-flight witnesses. -/
def demoCity : City := { name := "Paris", lat := 1, lon := 2, country := "FR" }

/-- A concrete snapshot stored in the cache-based witnesses. -/
def demoSnapshot : WeatherData :=
  { city := "Paris", temperature := 20, conditions := "Clear", humidity := 50,
    windSpeed := 5, icon := "01d", description := "clear sky", weatherId := 800,
    lastUpdated := "t", forecast := [], lat := some 1, lon := some 2,
    country := some "FR" }

/-- `WeatherService` persisted state holding a cached `demoCity` snapshot. -/
def stWithCache : Caches :=
  { weatherCache := [(cityKey demoCity, demoSnapshot)],
    timeCache := [(cityKey demoCity, 1)], pendingRequests := [] }

/-- Empty `WeatherService` persisted state. -/
def stEmpty : Caches := { weatherCache := [], timeCache := [], pendingRequests := [] }

/-- Empty in-flight map state. -/
def wsEmpty : WSState := { active := [], nextId := 0, issuedFetches := [] }

/-- Invariant of the dedup loop of `updateAllFavorites` after processing the
prefix `processed` of the valid items: every stored entry is keyed by its
item's composite key, is one of the processed items, and has the maximal
`updatedAt` among processed items sharing its key; every processed item's
key is present; and the keys are pairwise distinct. -/
def MapInv (processed : List FavoriteItem) (m : List (String × FavoriteItem)) : Prop :=
  (∀ p ∈ m, compositeKey p.2 = p.1 ∧ p.2 ∈ processed ∧
     ∀ u ∈ processed, compositeKey u = p.1 → u.updatedAt ≤ p.2.updatedAt)
  ∧ (∀ u ∈ processed, ∃ p ∈ m, p.1 = compositeKey u)
  ∧ (m.map Prod.fst).Nodup

theorem mapGet_eq_none_iff {β : Type} {m : List (String × β)} {k : String} :
    mapGet m k = none ↔ ∀ p ∈ m, p.1 ≠ k := by
  induction m with
  | nil => simp [mapGet]
  | cons hd tl ih =>
    obtain ⟨k', v⟩ := hd
    by_cases h : k' = k
    · subst h; simp [mapGet]
    · simp [mapGet, h, ih]

theorem mapGet_eq_some_mem {β : Type} {m : List (String × β)} {k : String} {v : β}
    (h : mapGet m k = some v) : (k, v) ∈ m := by
  induction m with
  | nil => simp [mapGet] at h
  | cons hd tl ih =>
    obtain ⟨k', v'⟩ := hd
    by_cases hk : k' = k
    · subst hk
      simp [mapGet] at h
      simp [h]
    · simp [mapGet, hk] at h
      exact List.mem_cons_of_mem _ (ih h)

theorem mem_mapGet_of_nodup {β : Type} {m : List (String × β)}
    (nd : (m.map Prod.fst).Nodup) {k : String} {v : β} (h : (k, v) ∈ m) :
    mapGet m k = some v := by
  induction m with
  | nil => simp at h
  | cons hd tl ih =>
    obtain ⟨k', v'⟩ := hd
    simp only [List.map_cons, List.nodup_cons] at nd
    rcases List.mem_cons.1 h with h1 | h1
    · obtain ⟨rfl, rfl⟩ := Prod.mk.injEq .. ▸ h1
      simp_all [mapGet]
    · have hk : k' ≠ k := by
        rintro rfl
        exact nd.1 (List.mem_map.2 ⟨(k', v), h1, rfl⟩)
      simp [mapGet, hk, ih nd.2 h1]

theorem mapSet_of_get_none {β : Type} {m : List (String × β)} {k : String}
    (h : mapGet m k = none) (v : β) : mapSet m k v = m ++ [(k, v)] := by
  induction m with
  | nil => simp [mapSet]
  | cons hd tl ih =>
    obtain ⟨k', v'⟩ := hd
    by_cases hk : k' = k
    · subst hk; simp [mapGet] at h
    · simp only [mapGet, if_neg hk] at h
      simp [mapSet, hk, ih h]

theorem keys_mapSet_of_get_some {β : Type} {m : List (String × β)} {k : String} {w : β}
    (h : mapGet m k = some w) (v : β) :
    (mapSet m k v).map Prod.fst = m.map Prod.fst := by
  induction m with
  | nil => simp [mapGet] at h
  | cons hd tl ih =>
    obtain ⟨k', v'⟩ := hd
    by_cases hk : k' = k
    · subst hk; simp [mapSet]
    · simp only [mapGet, if_neg hk] at h
      simp [mapSet, hk, ih h]

theorem mem_mapSet_iff {β : Type} {m : List (String × β)}
    (nd : (m.map Prod.fst).Nodup) {k : String} {v p : _} :
    p ∈ mapSet m k v ↔ p = (k, v) ∨ (p ∈ m ∧ p.1 ≠ k) := by
  induction m with
  | nil => simp [mapSet]
  | cons hd tl ih =>
    obtain ⟨k', v'⟩ := hd
    simp only [List.map_cons, List.nodup_cons] at nd
    by_cases hk : k' = k
    · subst hk
      have htl : ∀ q ∈ tl, q.1 ≠ k' := by
        intro q hq
        intro hEq
        exact nd.1 (List.mem_map.2 ⟨q, hq, hEq⟩)
      constructor
      · intro hp
        rcases List.mem_cons.1 (by simpa [mapSet] using hp) with h1 | h1
        · exact Or.inl h1
        · exact Or.inr ⟨List.mem_cons_of_mem _ h1, htl _ h1⟩
      · rintro (rfl | ⟨hp, hne⟩)
        · simp [mapSet]
        · rcases List.mem_cons.1 hp with h1 | h1
          · exact absurd (congrArg Prod.fst h1) (by simpa using hne)
          · simp [mapSet]
            right
            exact h1
    · simp only [mapSet, if_neg hk]
      constructor
      · intro hp
        rcases List.mem_cons.1 hp with h1 | h1
        · subst h1
          exact Or.inr ⟨List.mem_cons_self _ _, by simpa using hk⟩
        · rcases (ih nd.2).1 h1 with h2 | h2
          · exact Or.inl h2
          · exact Or.inr ⟨List.mem_cons_of_mem _ h2.1, h2.2⟩
      · rintro (rfl | ⟨hp, hne⟩)
        · exact List.mem_cons_of_mem _ ((ih nd.2).2 (Or.inl rfl))
        · rcases List.mem_cons.1 hp with h1 | h1
          · subst h1; exact List.mem_cons_self _ _
          · exact List.mem_cons_of_mem _ ((ih nd.2).2 (Or.inr ⟨h1, hne⟩))

theorem mapGet_append_of_none {β : Type} {m1 : List (String × β)} {k : String}
    (h : mapGet m1 k = none) (m2 : List (String × β)) :
    mapGet (m1 ++ m2) k = mapGet m2 k := by
  induction m1 with
  | nil => simp
  | cons hd tl ih =>
    obtain ⟨k', v'⟩ := hd
    by_cases hk : k' = k
    · subst hk; simp [mapGet] at h
    · simp only [mapGet, if_neg hk] at h
      simp [mapGet, hk, ih h]

theorem mapGet_eraseKey_self {β : Type} (m : List (String × β)) (k : String) :
    mapGet (eraseKey m k) k = none := by
  rw [mapGet_eq_none_iff]
  intro p hp
  have := List.of_mem_filter hp
  simpa using this

theorem dedupeStep_get_none {m : List (String × FavoriteItem)} {item : FavoriteItem}
    (hg : mapGet m (compositeKey item) = none) :
    dedupeStep m item = mapSet m (compositeKey item) item := by
  simp [dedupeStep, hg]

theorem dedupeStep_get_some {m : List (String × FavoriteItem)} {item existing : FavoriteItem}
    (hg : mapGet m (compositeKey item) = some existing) :
    dedupeStep m item =
      if existing.updatedAt < item.updatedAt then mapSet m (compositeKey item) item
      else m := by
  simp [dedupeStep, hg]

theorem MapInv_step {ps : List FavoriteItem} {m : List (String × FavoriteItem)}
    {item : FavoriteItem} (inv : MapInv ps m) :
    MapInv (ps ++ [item]) (dedupeStep m item) := by
  obtain ⟨hent, hex, hnd⟩ := inv
  cases hg : mapGet m (compositeKey item) with
  | none =>
    rw [dedupeStep_get_none hg, mapSet_of_get_none hg]
    refine ⟨?_, ?_, ?_⟩
    · intro p hp
      rcases List.mem_append.1 hp with h1 | h1
      · obtain ⟨h2, h3, h4⟩ := hent p h1
        refine ⟨h2, List.mem_append_left _ h3, ?_⟩
        intro u hu hku
        rcases List.mem_append.1 hu with hu1 | hu1
        · exact h4 u hu1 hku
        · simp only [List.mem_singleton] at hu1
          subst hu1
          exact absurd hku.symm (mapGet_eq_none_iff.1 hg p h1)
      · simp only [List.mem_singleton] at h1
        subst h1
        refine ⟨rfl, List.mem_append_right _ (by simp), ?_⟩
        intro u hu hku
        rcases List.mem_append.1 hu with hu1 | hu1
        · exfalso
          obtain ⟨p', hp', hpk⟩ := hex u hu1
          exact (mapGet_eq_none_iff.1 hg p' hp') (by rw [hpk, hku])
        · simp only [List.mem_singleton] at hu1
          subst hu1
          exact le_refl _
    · intro u hu
      rcases List.mem_append.1 hu with hu1 | hu1
      · obtain ⟨p, hp, hpk⟩ := hex u hu1
        exact ⟨p, List.mem_append_left _ hp, hpk⟩
      · simp only [List.mem_singleton] at hu1
        subst hu1
        exact ⟨(compositeKey u, u), List.mem_append_right _ (by simp), rfl⟩
    · rw [List.map_append]
      refine List.Nodup.append hnd (by simp) ?_
      intro a ha hb
      simp only [List.map_cons, List.map_nil, List.mem_singleton] at hb
      subst hb
      obtain ⟨p, hp, hpk⟩ := List.mem_map.1 ha
      exact (mapGet_eq_none_iff.1 hg p hp) hpk
  | some existing =>
    rw [dedupeStep_get_some hg]
    by_cases hlt : existing.updatedAt < item.updatedAt
    · rw [if_pos hlt]
      refine ⟨?_, ?_, ?_⟩
      · intro p hp
        rcases (mem_mapSet_iff hnd).1 hp with rfl | ⟨hpm, hpk⟩
        · refine ⟨rfl, List.mem_append_right _ (by simp), ?_⟩
          intro u hu hku
          rcases List.mem_append.1 hu with hu1 | hu1
          · have hentE := hent (compositeKey item, existing) (mapGet_eq_some_mem hg)
            exact le_trans (hentE.2.2 u hu1 hku) (le_of_lt hlt)
          · simp only [List.mem_singleton] at hu1
            subst hu1
            exact le_refl _
        · obtain ⟨h2, h3, h4⟩ := hent p hpm
          refine ⟨h2, List.mem_append_left _ h3, ?_⟩
          intro u hu hku
          rcases List.mem_append.1 hu with hu1 | hu1
          · exact h4 u hu1 hku
          · simp only [List.mem_singleton] at hu1
            subst hu1
            exact absurd hku.symm hpk
      · intro u hu
        rcases List.mem_append.1 hu with hu1 | hu1
        · obtain ⟨p, hp, hpk⟩ := hex u hu1
          by_cases hpk2 : p.1 = compositeKey item
          · exact ⟨(compositeKey item, item), (mem_mapSet_iff hnd).2 (Or.inl rfl),
              by rw [← hpk2, hpk]⟩
          · exact ⟨p, (mem_mapSet_iff hnd).2 (Or.inr ⟨hp, hpk2⟩), hpk⟩
        · simp only [List.mem_singleton] at hu1
          subst hu1
          exact ⟨(compositeKey u, u), (mem_mapSet_iff hnd).2 (Or.inl rfl), rfl⟩
      · rw [keys_mapSet_of_get_some hg]
        exact hnd
    · rw [if_neg hlt]
      refine ⟨?_, ?_, ?_⟩
      · intro p hp
        obtain ⟨h2, h3, h4⟩ := hent p hp
        refine ⟨h2, List.mem_append_left _ h3, ?_⟩
        intro u hu hku
        rcases List.mem_append.1 hu with hu1 | hu1
        · exact h4 u hu1 hku
        · simp only [List.mem_singleton] at hu1
          subst hu1
          have hpm : mapGet m p.1 = some p.2 := by
            refine mem_mapGet_of_nodup hnd ?_
            cases p
            exact hp
          rw [← hku] at hpm
          rw [hg] at hpm
          have hp2 : p.2 = existing := by
            injection hpm with h
            exact h.symm
          rw [hp2]
          exact not_lt.1 hlt
      · intro u hu
        rcases List.mem_append.1 hu with hu1 | hu1
        · exact hex u hu1
        · simp only [List.mem_singleton] at hu1
          subst hu1
          exact ⟨(compositeKey u, existing), mapGet_eq_some_mem hg, rfl⟩
      · exact hnd

theorem MapInv_fold {ps : List FavoriteItem} {m : List (String × FavoriteItem)}
    (inv : MapInv ps m) (items : List FavoriteItem) :
    MapInv (ps ++ items) (items.foldl dedupeStep m) := by
  induction items generalizing ps m with
  | nil => simpa using inv
  | cons hd tl ih =>
    have step : MapInv (ps ++ [hd]) (dedupeStep m hd) := MapInv_step inv
    have := ih step
    simpa using this

theorem MapInv_buildCityMap (items : List FavoriteItem) :
    MapInv items (buildCityMap items) := by
  have : MapInv ([] ++ items) (items.foldl dedupeStep []) :=
    MapInv_fold (by refine ⟨?_, ?_, ?_⟩ <;> simp) items
  simpa [buildCityMap] using this

theorem candidates_subset_valid {allItems : List FavoriteItem} {c : FavoriteItem}
    (hc : c ∈ candidates allItems) :
    c ∈ allItems.filter isValidItem ∧
      ∀ u ∈ allItems.filter isValidItem,
        compositeKey u = compositeKey c → u.updatedAt ≤ c.updatedAt := by
  obtain ⟨hent, hex, hnd⟩ := MapInv_buildCityMap (allItems.filter isValidItem)
  obtain ⟨p, hp, rfl⟩ := List.mem_map.1 hc
  obtain ⟨h2, h3, h4⟩ := hent p hp
  exact ⟨h3, fun u hu hk => h4 u hu (by rw [hk, h2])⟩

theorem candidates_keys_nodup (allItems : List FavoriteItem) :
    ((candidates allItems).map compositeKey).Nodup := by
  obtain ⟨hent, hex, hnd⟩ := MapInv_buildCityMap (allItems.filter isValidItem)
  have h : (candidates allItems).map compositeKey
      = (buildCityMap (allItems.filter isValidItem)).map Prod.fst := by
    unfold candidates
    rw [List.map_map]
    exact List.map_congr_left (fun p hp => (hent p hp).1)
  rw [h]
  exact hnd

theorem candidates_any_key (allItems : List FavoriteItem) (k : String) :
    (candidates allItems).any (fun c => compositeKey c == k)
    = (allItems.filter isValidItem).any (fun v => compositeKey v == k) := by
  obtain ⟨hent, hex, hnd⟩ := MapInv_buildCityMap (allItems.filter isValidItem)
  have h : (candidates allItems).any (fun c => compositeKey c == k) = true
      ↔ (allItems.filter isValidItem).any (fun v => compositeKey v == k) = true := by
    simp only [List.any_eq_true]
    constructor
    · rintro ⟨c, hc, hck⟩
      exact ⟨c, (candidates_subset_valid hc).1, hck⟩
    · rintro ⟨v, hv, hvk⟩
      obtain ⟨p, hp, hpk⟩ := hex v hv
      refine ⟨p.2, List.mem_map.2 ⟨p, hp, rfl⟩, ?_⟩
      rw [(hent p hp).1, hpk]
      exact hvk
  exact Bool.eq_iff_iff.2 (by simpa using h)

theorem length_filter_key {l : List FavoriteItem}
    (nd : (l.map compositeKey).Nodup) (k : String) :
    (l.filter (fun c => compositeKey c == k)).length
    = if l.any (fun c => compositeKey c == k) then 1 else 0 := by
  induction l with
  | nil => simp
  | cons hd tl ih =>
    simp only [List.map_cons, List.nodup_cons] at nd
    by_cases hk : compositeKey hd == k
    · have hdk : compositeKey hd = k := by simpa using hk
      have htl : tl.filter (fun c => compositeKey c == k) = [] := by
        rw [List.filter_eq_nil_iff]
        intro c hc hcc
        refine nd.1 (List.mem_map.2 ⟨c, hc, ?_⟩)
        rw [hdk]
        simpa using hcc
      simp [List.filter_cons, hk, htl, List.any_cons]
    · simp [List.filter_cons, hk, List.any_cons, ih nd.2]

theorem updateOne_trace_spec (geo : String → Option City)
    (fetchW : City → Option WeatherData) (upsertOk : FavoriteWeatherData → Bool)
    (x : FavoriteItem) :
    (∀ e ∈ (updateOneFavorite geo fetchW upsertOk x).2, e.isDelay = false)
    ∧ ((updateOneFavorite geo fetchW upsertOk x).2.filter Event.isWeatherFetch).length ≤ 1
    ∧ (∀ fd, Event.upsertRecord fd ∈ (updateOneFavorite geo fetchW upsertOk x).2 →
        fd.id = some x.id) := by
  unfold updateOneFavorite
  rcases hgeo : resolveGeo geo x with ⟨o, evts⟩
  have hevts : evts = [] ∨ evts = [Event.geoSearch x.name] := by
    unfold resolveGeo at hgeo
    by_cases hb : ((metaGeo x).1.isNone || (metaGeo x).2.1.isNone)
    · rw [if_pos hb] at hgeo
      cases hg2 : geo x.name with
      | none =>
        rw [hg2] at hgeo
        simp at hgeo
        exact Or.inr hgeo.2.symm
      | some c =>
        rw [hg2] at hgeo
        simp at hgeo
        exact Or.inr hgeo.2.symm
    · rw [if_neg hb] at hgeo
      simp at hgeo
      exact Or.inl hgeo.2
  rcases o with _ | ⟨lat, lon, co⟩
  · simp only [finishUpdate]
    rcases hevts with rfl | rfl <;>
      simp [Event.isDelay, Event.isWeatherFetch]
  · simp only [finishUpdate]
    rcases hfw : fetchW _ with _ | wd
    · rcases hevts with rfl | rfl <;>
        simp [Event.isDelay, Event.isWeatherFetch]
    · rcases hevts with rfl | rfl <;>
        simp [Event.isDelay, Event.isWeatherFetch]

theorem length_filter_map_fst {α : Type} (F : α → Bool × List Event) (b : List α) :
    ((b.map F).filter (fun r => r.1)).length = (b.filter (fun x => (F x).1)).length := by
  induction b with
  | nil => simp
  | cons hd tl ih =>
    by_cases h : (F hd).1 <;> simp [List.filter_cons, h, ih]

theorem runBatch_count (geo : String → Option City) (fetchW : City → Option WeatherData)
    (upsertOk : FavoriteWeatherData → Bool) (b : List FavoriteItem) :
    (runBatch geo fetchW upsertOk b).1
      = (b.filter (fun x => (updateOneFavorite geo fetchW upsertOk x).1)).length := by
  unfold runBatch
  exact length_filter_map_fst _ b

theorem runBatch_events (geo : String → Option City) (fetchW : City → Option WeatherData)
    (upsertOk : FavoriteWeatherData → Bool) (b : List FavoriteItem) :
    (runBatch geo fetchW upsertOk b).2
      = b.flatMap (fun x => (updateOneFavorite geo fetchW upsertOk x).2) := by
  unfold runBatch
  induction b with
  | nil => simp
  | cons hd tl ih => simp_all

theorem runBatch_no_delay (geo : String → Option City) (fetchW : City → Option WeatherData)
    (upsertOk : FavoriteWeatherData → Bool) (b : List FavoriteItem) :
    ∀ e ∈ (runBatch geo fetchW upsertOk b).2, e.isDelay = false := by
  intro e he
  rw [runBatch_events] at he
  obtain ⟨x, _, hx⟩ := List.mem_flatMap.1 he
  exact (updateOne_trace_spec geo fetchW upsertOk x).1 e hx

theorem runBatches_count (geo : String → Option City) (fetchW : City → Option WeatherData)
    (upsertOk : FavoriteWeatherData → Bool) (bs : List (List FavoriteItem)) :
    (runBatches geo fetchW upsertOk bs).1
      = (bs.flatten.filter (fun x => (updateOneFavorite geo fetchW upsertOk x).1)).length := by
  induction bs with
  | nil => simp [runBatches]
  | cons b rest ih =>
    cases rest with
    | nil => simp [runBatches, runBatch_count]
    | cons b2 rest2 =>
      simp only [runBatches]
      rw [runBatch_count, ih]
      simp [List.filter_append]

theorem runBatches_nondelay_events (geo : String → Option City)
    (fetchW : City → Option WeatherData) (upsertOk : FavoriteWeatherData → Bool)
    (bs : List (List FavoriteItem)) :
    (runBatches geo fetchW upsertOk bs).2.filter (fun e => !e.isDelay)
      = bs.flatten.flatMap (fun x => (updateOneFavorite geo fetchW upsertOk x).2) := by
  induction bs with
  | nil => simp [runBatches]
  | cons b rest ih =>
    have hb : (runBatch geo fetchW upsertOk b).2.filter (fun e => !e.isDelay)
        = (runBatch geo fetchW upsertOk b).2 := by
      rw [List.filter_eq_self]
      intro e he
      simp [runBatch_no_delay geo fetchW upsertOk b e he]
    cases rest with
    | nil =>
      simp only [runBatches]
      rw [hb, runBatch_events]
      simp
    | cons b2 rest2 =>
      simp only [runBatches]
      rw [List.filter_append, List.filter_append, hb, ih, runBatch_events]
      simp [Event.isDelay]

theorem runBatches_delay_count (geo : String → Option City)
    (fetchW : City → Option WeatherData) (upsertOk : FavoriteWeatherData → Bool)
    (bs : List (List FavoriteItem)) :
    ((runBatches geo fetchW upsertOk bs).2.filter Event.isDelay).length = bs.length - 1 := by
  induction bs with
  | nil => simp [runBatches]
  | cons b rest ih =>
    have hb : (runBatch geo fetchW upsertOk b).2.filter Event.isDelay = [] := by
      rw [List.filter_eq_nil_iff]
      intro e he
      simp [runBatch_no_delay geo fetchW upsertOk b e he]
    cases rest with
    | nil => simp [runBatches, hb]
    | cons b2 rest2 =>
      simp only [runBatches]
      rw [List.filter_append, List.filter_append, hb]
      simp only [List.length_append, ih]
      simp [Event.isDelay]
      omega

theorem chunksOf3_flatten {α : Type} (l : List α) : (chunksOf3 l).flatten = l := by
  induction l using chunksOf3.induct with
  | case1 => rfl
  | case2 a => rfl
  | case3 a b => rfl
  | case4 a b c rest ih => simp [chunksOf3, ih]

theorem chunksOf3_length_le {α : Type} (l : List α) :
    ∀ b ∈ chunksOf3 l, b.length ≤ 3 := by
  induction l using chunksOf3.induct with
  | case1 => simp [chunksOf3]
  | case2 a => simp [chunksOf3]
  | case3 a b => simp [chunksOf3]
  | case4 a b c rest ih =>
    intro x hx
    rcases List.mem_cons.1 hx with rfl | hx2
    · simp
    · exact ih x hx2

theorem chunksOf3_eq_nil_iff {α : Type} (l : List α) : chunksOf3 l = [] ↔ l = [] := by
  induction l using chunksOf3.induct with
  | case1 => simp [chunksOf3]
  | case2 a => simp [chunksOf3]
  | case3 a b => simp [chunksOf3]
  | case4 a b c rest ih => simp [chunksOf3]

theorem chunksOf3_nonfinal_length {α : Type} (l : List α) :
    ∀ i, i + 1 < (chunksOf3 l).length → ((chunksOf3 l).getD i []).length = 3 := by
  induction l using chunksOf3.induct with
  | case1 => intro i hi; simp [chunksOf3] at hi
  | case2 a => intro i hi; simp [chunksOf3] at hi
  | case3 a b => intro i hi; simp [chunksOf3] at hi
  | case4 a b c rest ih =>
    intro i hi
    cases i with
    | zero => rfl
    | succ j =>
      simp only [chunksOf3, List.getD_cons_succ]
      apply ih
      simpa [chunksOf3] using hi

/-- C1: for every remote favorites list, `updateAllFavorites` groups the
surviving (non-deleted, metadata-parseable) records by the composite key
`lowercase(name)-weatherId(or 0)`, and its candidate set contains, for each
composite key, exactly one record — one with the maximal `updatedAt` among
the surviving records of that key; candidate keys are pairwise distinct and
each candidate's pipeline issues at most one weather fetch, so at most one
weather fetch is issued per composite key in a single run. -/
theorem updateAllFavorites_dedup_unique_max (allItems : List FavoriteItem)
    (k : String) (geo : String → Option City) (fetchW : City → Option WeatherData)
    (upsertOk : FavoriteWeatherData → Bool) :
    ((candidates allItems).filter (fun c => compositeKey c == k)).length
      = (if (allItems.filter isValidItem).any (fun v => compositeKey v == k) then 1 else 0)
    ∧ (∀ c ∈ candidates allItems,
        c ∈ allItems.filter isValidItem
        ∧ ∀ u ∈ allItems.filter isValidItem,
            compositeKey u = compositeKey c → u.updatedAt ≤ c.updatedAt)
    ∧ ((candidates allItems).map compositeKey).Nodup
    ∧ (∀ c ∈ candidates allItems,
        ((updateOneFavorite geo fetchW upsertOk c).2.filter Event.isWeatherFetch).length ≤ 1) := by
  refine ⟨?_, ?_, candidates_keys_nodup allItems, ?_⟩
  · rw [length_filter_key (candidates_keys_nodup allItems) k, candidates_any_key]
  · exact fun c hc => candidates_subset_valid hc
  · exact fun c _ => (updateOne_trace_spec geo fetchW upsertOk c).2.1

/-- Witness for C1: on a list holding two live `Paris` duplicates and one
soft-deleted record, the candidate set is exactly the later duplicate, and
the theorem yields that the earlier duplicate's `updatedAt` is dominated. -/
theorem updateAllFavorites_dedup_unique_max_witness :
    candidates [itemParis1, itemParis2, deletedDemoItem] = [itemParis2]
    ∧ itemParis1.updatedAt ≤ itemParis2.updatedAt := by
  have h := updateAllFavorites_dedup_unique_max
    [itemParis1, itemParis2, deletedDemoItem] "paris-10" geoDemo fetchDemo upsertDemo
  refine ⟨by decide, ?_⟩
  exact (h.2.1 itemParis2 (by decide)).2 itemParis1 (by decide) (by decide)

/-- C6: `updateAllFavorites` processes its candidate set in order in batches
of exactly 3 (the final batch possibly smaller), joins each batch with an
all-settled join so that one candidate's failure does not affect its
siblings or later batches — the returned count equals exactly the number of
candidates whose pipeline (geo resolution, weather fetch, upsert carrying
the original record id) succeeded — and pauses once after each non-final
batch. -/
theorem updateAllFavorites_batching (geo : String → Option City)
    (fetchW : City → Option WeatherData) (upsertOk : FavoriteWeatherData → Bool)
    (items favs : List FavoriteItem) (h : favs = candidates items) :
    (updateAllFavoritesRun geo fetchW upsertOk (.ok items)).1
        = (favs.filter (fun x => (updateOneFavorite geo fetchW upsertOk x).1)).length
    ∧ (updateAllFavoritesRun geo fetchW upsertOk (.ok items)).2.filter (fun e => !e.isDelay)
        = favs.flatMap (fun x => (updateOneFavorite geo fetchW upsertOk x).2)
    ∧ ((updateAllFavoritesRun geo fetchW upsertOk (.ok items)).2.filter Event.isDelay).length
        = (chunksOf3 favs).length - 1
    ∧ (chunksOf3 favs).flatten = favs
    ∧ (∀ b ∈ chunksOf3 favs, b.length ≤ 3)
    ∧ (∀ i, i + 1 < (chunksOf3 favs).length → ((chunksOf3 favs).getD i []).length = 3)
    ∧ (∀ c ∈ favs, ∀ fd,
        Event.upsertRecord fd ∈ (updateOneFavorite geo fetchW upsertOk c).2 →
          fd.id = some c.id) := by
  subst h
  by_cases hz : (candidates items).length = 0
  · have hnil : candidates items = [] := List.length_eq_zero.1 hz
    rw [hnil]
    simp only [updateAllFavoritesRun, hnil, List.length_nil, if_pos rfl]
    refine ⟨by simp, by simp, ?_, by simp [chunksOf3], by simp [chunksOf3], ?_, by simp⟩
    · simp [chunksOf3]
    · intro i hi
      simp [chunksOf3] at hi
  · simp only [updateAllFavoritesRun, if_neg hz]
    refine ⟨?_, ?_, ?_, chunksOf3_flatten _, chunksOf3_length_le _,
      chunksOf3_nonfinal_length _, ?_⟩
    · rw [runBatches_count, chunksOf3_flatten]
    · rw [runBatches_nondelay_events, chunksOf3_flatten]
    · rw [runBatches_delay_count]
    · exact fun c _ fd hfd => (updateOne_trace_spec geo fetchW upsertOk c).2.2 fd hfd

/-- Witness for C6: five candidates with the second one failing at upsert
give two batches (3 + 2), a returned count of exactly 4, and exactly one
inter-batch pause. -/
theorem updateAllFavorites_batching_witness :
    (updateAllFavoritesRun geoDemo fetchDemo upsertDemo
        (.ok [demoFav 1, demoFav 2, demoFav 3, demoFav 4, demoFav 5])).1 = 4
    ∧ ((updateAllFavoritesRun geoDemo fetchDemo upsertDemo
        (.ok [demoFav 1, demoFav 2, demoFav 3, demoFav 4, demoFav 5])).2.filter
          Event.isDelay).length = 1 := by
  have h := updateAllFavorites_batching geoDemo fetchDemo upsertDemo
    [demoFav 1, demoFav 2, demoFav 3, demoFav 4, demoFav 5]
    (candidates [demoFav 1, demoFav 2, demoFav 3, demoFav 4, demoFav 5]) rfl
  refine ⟨?_, ?_⟩
  · rw [h.1]; decide
  · rw [h.2.2.1]; decide

/-- C7: `updateAllFavorites` never raises — a failing `LIST_ITEMS` query is
caught and yields `0` with no effect performed — and when zero favorites
remain after filtering and deduplication it returns `0` without any geo,
weather, or upsert operation. -/
theorem updateAllFavorites_never_raises (geo : String → Option City)
    (fetchW : City → Option WeatherData) (upsertOk : FavoriteWeatherData → Bool) :
    updateAllFavoritesRun geo fetchW upsertOk (.error ()) = (0, [])
    ∧ ∀ items, candidates items = [] →
        updateAllFavoritesRun geo fetchW upsertOk (.ok items) = (0, []) := by
  refine ⟨rfl, fun items h => ?_⟩
  simp [updateAllFavoritesRun, h]

/-- Witness for C7: a list holding only a soft-deleted record filters to an
empty candidate set and the run returns `0` with an empty effect trace. -/
theorem updateAllFavorites_never_raises_witness :
    updateAllFavoritesRun geoDemo fetchDemo upsertDemo (.ok [deletedDemoItem]) = (0, []) :=
  (updateAllFavorites_never_raises geoDemo fetchDemo upsertDemo).2
    [deletedDemoItem] (by decide)

/-- C2 counterexample: a record whose metadata string fails to parse — here
even with empty content — is still matched by `checkIfCityInFavorites` and
by `toggleFavorite`'s matching predicate, refuting the claim that such a
record is never matched in these enumerations. -/
theorem softDelete_parseFailure_matched_counterexample :
    checkIfCityInFavorites (.ok [badItem]) "Paris" none = true
    ∧ toggleMatches "Paris" 0 badItem = true := by
  exact ⟨by decide, by decide⟩

/-- C2 amended: `updateAllFavorites`' candidate set excludes records with
empty content, `metadata.deleted = true`, or unparseable metadata; the
predicates of `checkIfCityInFavorites` and `toggleFavorite` exclude records
with empty content or `deleted = true` only when the metadata parses — a
record with unparseable metadata is not excluded there and can still be
matched by name. -/
theorem softDelete_filter_amended :
    (∀ allItems : List FavoriteItem, ∀ item ∈ candidates allItems,
        item.content ≠ "" ∧ ∃ m, item.metadata = some m ∧ m.deleted ≠ some true)
    ∧ (∀ (cityName : String) (wid : Option Nat) (item : FavoriteItem) (m : Meta),
        item.metadata = some m → (item.content = "" ∨ m.deleted = some true) →
        checkItemMatches cityName wid item = false)
    ∧ (∀ (city : String) (wid : Nat) (item : FavoriteItem) (m : Meta),
        item.metadata = some m → (item.content = "" ∨ m.deleted = some true) →
        toggleMatches city wid item = false) := by
  refine ⟨?_, ?_, ?_⟩
  · intro allItems item hitem
    have hv := (candidates_subset_valid hitem).1
    have hval : isValidItem item = true := (List.mem_filter.1 hv).2
    unfold isValidItem at hval
    cases hmeta : item.metadata with
    | none => rw [hmeta] at hval; simp at hval
    | some m =>
      rw [hmeta] at hval
      simp at hval
      exact ⟨hval.1, m, rfl, hval.2⟩
  · intro cityName wid item m hm hdel
    rcases hdel with h | h <;> simp [checkItemMatches, hm, h]
  · intro city wid item m hm hdel
    rcases hdel with h | h <;> simp [toggleMatches, hm, h]

/-- Witness for the amended C2: a parseable record with `deleted = true` is
matched by neither predicate. -/
theorem softDelete_filter_amended_witness :
    checkItemMatches "Paris" (some 10) deletedDemoItem = false
    ∧ toggleMatches "Paris" 10 deletedDemoItem = false :=
  ⟨softDelete_filter_amended.2.1 "Paris" (some 10) deletedDemoItem _ rfl (Or.inr rfl),
   softDelete_filter_amended.2.2 "Paris" 10 deletedDemoItem _ rfl (Or.inr rfl)⟩

/-- C3: when no request for the key is in flight, the first
`fetchWeatherFromApi` call issues exactly one network request pair and
registers it; a second concurrent call for the same key issues nothing and
receives the identical pending promise (hence the identical resolved
snapshot); and settling — success or failure alike — removes the in-flight
entry. -/
theorem fetchWeatherFromApi_inflight_dedup (s : WSState) (city : City)
    (outcome : SettleOutcome) (h : mapGet s.active (cityKey city) = none) :
    (fetchWeatherStart s city).2.2 = true
    ∧ (fetchWeatherStart (fetchWeatherStart s city).1 city).2.2 = false
    ∧ (fetchWeatherStart (fetchWeatherStart s city).1 city).2.1
        = (fetchWeatherStart s city).2.1
    ∧ (fetchWeatherStart (fetchWeatherStart s city).1 city).1.issuedFetches
        = s.issuedFetches ++ [(cityKey city, (fetchWeatherStart s city).2.1)]
    ∧ mapGet (fetchWeatherSettle
        (fetchWeatherStart (fetchWeatherStart s city).1 city).1 city outcome).active
        (cityKey city) = none := by
  have h1 : fetchWeatherStart s city
      = ({ active := s.active ++ [(cityKey city, s.nextId)], nextId := s.nextId + 1,
           issuedFetches := s.issuedFetches ++ [(cityKey city, s.nextId)] },
         s.nextId, true) := by
    simp only [fetchWeatherStart, h]
  have hget : mapGet (s.active ++ [(cityKey city, s.nextId)]) (cityKey city)
      = some s.nextId := by
    rw [mapGet_append_of_none h]
    simp [mapGet]
  have h2 : fetchWeatherStart (fetchWeatherStart s city).1 city
      = ((fetchWeatherStart s city).1, s.nextId, false) := by
    rw [h1]
    simp only [fetchWeatherStart, hget]
  refine ⟨by rw [h1], by rw [h2], by rw [h2, h1], by rw [h2, h1], ?_⟩
  cases outcome with
  | success w => exact mapGet_eraseKey_self _ _
  | failure => exact mapGet_eraseKey_self _ _

/-- Witness for C3: from the empty in-flight map, two calls for `demoCity`
share one promise and the map is clean after a failed settle. -/
theorem fetchWeatherFromApi_inflight_dedup_witness :
    (fetchWeatherStart (fetchWeatherStart wsEmpty demoCity).1 demoCity).2.1
      = (fetchWeatherStart wsEmpty demoCity).2.1
    ∧ mapGet (fetchWeatherSettle
        (fetchWeatherStart (fetchWeatherStart wsEmpty demoCity).1 demoCity).1
        demoCity .failure).active (cityKey demoCity) = none := by
  have h := fetchWeatherFromApi_inflight_dedup wsEmpty demoCity .failure rfl
  exact ⟨h.2.2.1, h.2.2.2.2⟩

/-- C4 counterexample: a cache entry whose age is exactly one hour
(`now - t = 3600000` ms) is NOT considered expired — expiry uses a strict
`>` — refuting the claim that the one-hour boundary is inclusive. -/
theorem isCacheExpired_boundary_counterexample :
    isCacheExpired 3600001 (some 1) false = false := by decide

/-- C4 amended: a missing timestamp is expired; an age strictly greater
than one hour is expired; and a nonzero timestamp whose age is at most one
hour (the exact one-hour boundary included) with `forceRefresh` false is
fresh. -/
theorem isCacheExpired_strict_boundary (now t : Int) (fr : Bool) :
    isCacheExpired now none fr = true
    ∧ (now - t > CACHE_EXPIRATION → isCacheExpired now (some t) fr = true)
    ∧ (t ≠ 0 → now - t ≤ CACHE_EXPIRATION →
        isCacheExpired now (some t) false = false) := by
  refine ⟨by simp [isCacheExpired], fun h => by simp [isCacheExpired, h], fun h1 h2 => ?_⟩
  have h2' : ¬(now - t > CACHE_EXPIRATION) := not_lt.2 h2
  simp [isCacheExpired, h1, h2']

/-- Witness for the amended C4: age far beyond an hour is expired; age just
under the boundary is fresh. -/
theorem isCacheExpired_strict_boundary_witness :
    isCacheExpired 7200001 (some 1) false = true
    ∧ isCacheExpired 3600000 (some 1) false = false :=
  ⟨(isCacheExpired_strict_boundary 7200001 1 false).2.1 (by decide),
   (isCacheExpired_strict_boundary 3600000 1 false).2.2 (by decide) (by decide)⟩

theorem clearCity_weather_none (city : City) (st : Caches) :
    mapGet (clearCityWeatherCache city st).weatherCache (cityKey city) = none := by
  unfold clearCityWeatherCache
  cases hg : mapGet st.weatherCache (cityKey city) with
  | some w =>
    simp only [hg]
    exact mapGet_eraseKey_self _ _
  | none => simp only [hg]

/-- C5 counterexample, in two parts.  Online, cache expired, fetch failing:
(i) with no cached snapshot, `getWeatherData` returns `null` — a value, not
a raised failure (the re-thrown error is swallowed by the function's own
top-level `catch`); (ii) with `forceRefresh` and a cached snapshot present,
the snapshot has been evicted before the fetch, so `null` is returned
instead of the snapshot the claim promises. -/
theorem getWeatherData_fetchFail_counterexample :
    (getWeatherData true 7200002 none demoCity false stEmpty).2 = none
    ∧ (getWeatherData true 7200002 none demoCity true stWithCache).2 = none := by
  exact ⟨by decide, by decide⟩

/-- C5 amended: online with an expired cache (or `forceRefresh`) and a
failing fetch, `getWeatherData` returns `null` when no cached snapshot
exists for the key (the failure is caught by its top-level handler, not
propagated); when `forceRefresh` is false and a cached snapshot exists, the
snapshot is returned instead. -/
theorem getWeatherData_fetchFail_amended (currentTime : Int) (city : City)
    (forceRefresh : Bool) (st : Caches)
    (hexp : isCacheExpired currentTime (mapGet st.timeCache (cityKey city))
      forceRefresh = true) :
    (mapGet st.weatherCache (cityKey city) = none →
      (getWeatherData true currentTime none city forceRefresh st).2 = none)
    ∧ (forceRefresh = false → ∀ w, mapGet st.weatherCache (cityKey city) = some w →
      (getWeatherData true currentTime none city false st).2 = some w) := by
  constructor
  · intro hcache
    unfold getWeatherData getWeatherDataBody
    simp only [hexp, Bool.and_true, Bool.true_and, if_true]
    cases forceRefresh with
    | false =>
      simp only [Bool.false_eq_true, if_false, hcache]
    | true =>
      simp only [if_true, clearCity_weather_none]
  · intro hfr w hw
    subst hfr
    unfold getWeatherData getWeatherDataBody
    simp only [hexp, Bool.and_true, Bool.true_and, if_true, Bool.false_eq_true,
      if_false, hw]

/-- Witness for the amended C5: both branches at concrete states — no cache
gives `null`; non-forced refresh with a cached snapshot returns it. -/
theorem getWeatherData_fetchFail_amended_witness :
    (getWeatherData true 7200002 none demoCity false stEmpty).2 = none
    ∧ (getWeatherData true 7200002 none demoCity false stWithCache).2
        = some demoSnapshot := by
  constructor
  · exact (getWeatherData_fetchFail_amended 7200002 demoCity false stEmpty
      (by decide)).1 rfl
  · exact (getWeatherData_fetchFail_amended 7200002 demoCity false stWithCache
      (by decide)).2 rfl demoSnapshot rfl


/-- C8: offline with no cached snapshot, `getWeatherData` returns `null`
and appends the city to the persisted pending queue, deduplicated by exact
`(name, country)` equality — a second identical call returns `null` again,
leaves the queue unchanged, and exactly one matching entry remains. -/
theorem getWeatherData_offline_pending_idempotent (currentTime : Int)
    (fetchResult : Option WeatherData) (city : City) (forceRefresh : Bool)
    (st : Caches)
    (hcache : mapGet st.weatherCache (cityKey city) = none)
    (hqueue : st.pendingRequests.any
      (fun c => c.name == city.name && c.country == city.country) = false) :
    (getWeatherData false currentTime fetchResult city forceRefresh st).2 = none
    ∧ (getWeatherData false currentTime fetchResult city forceRefresh
        (getWeatherData false currentTime fetchResult city forceRefresh st).1).2 = none
    ∧ (getWeatherData false currentTime fetchResult city forceRefresh st).1.pendingRequests
        = st.pendingRequests ++ [city]
    ∧ (getWeatherData false currentTime fetchResult city forceRefresh
          (getWeatherData false currentTime fetchResult city forceRefresh st).1).1.pendingRequests
        = (getWeatherData false currentTime fetchResult city forceRefresh st).1.pendingRequests
    ∧ ((getWeatherData false currentTime fetchResult city forceRefresh
          (getWeatherData false currentTime fetchResult city forceRefresh st).1).1.pendingRequests.filter
        (fun c => c.name == city.name && c.country == city.country)).length = 1 := by
  have hpend1 : storePendingRequest city st.pendingRequests
      = st.pendingRequests ++ [city] := by
    unfold storePendingRequest
    rw [hqueue]
    simp
  have h1 : getWeatherData false currentTime fetchResult city forceRefresh st
      = ({ st with pendingRequests := storePendingRequest city st.pendingRequests },
         none) := by
    unfold getWeatherData getWeatherDataBody
    simp [hcache]
  have hpend2 : storePendingRequest city (st.pendingRequests ++ [city])
      = st.pendingRequests ++ [city] := by
    unfold storePendingRequest
    rw [if_pos]
    rw [List.any_append]
    simp
  have h2 : getWeatherData false currentTime fetchResult city forceRefresh
        ({ st with pendingRequests := storePendingRequest city st.pendingRequests })
      = ({ st with pendingRequests := storePendingRequest city st.pendingRequests },
         none) := by
    unfold getWeatherData getWeatherDataBody
    simp only [hpend1]
    simp [hcache, hpend2]
  have hfilter : st.pendingRequests.filter
      (fun c => c.name == city.name && c.country == city.country) = [] := by
    rw [List.filter_eq_nil_iff]
    intro c hc
    have := (List.any_eq_false.1 hqueue) c hc
    simpa using this
  refine ⟨by rw [h1], ?_, by rw [h1]; exact hpend1, ?_, ?_⟩
  · rw [h1]
    simp only
    rw [h2]
  · rw [h1]
    simp only
    rw [h2]
  · rw [h1]
    simp only
    rw [h2]
    simp only [hpend1]
    rw [List.filter_append, hfilter]
    simp

/-- Witness for C8: two offline calls for `demoCity` against the empty
state leave exactly one matching entry in the pending queue. -/
theorem getWeatherData_offline_pending_idempotent_witness :
    ((getWeatherData false 0 none demoCity false
        (getWeatherData false 0 none demoCity false stEmpty).1).1.pendingRequests.filter
      (fun c => c.name == demoCity.name && c.country == demoCity.country)).length = 1 :=
  (getWeatherData_offline_pending_idempotent 0 none demoCity false stEmpty
    rfl rfl).2.2.2.2

/-- C9: `searchCities` returns the empty sequence for every query shorter
than 2 characters, performing neither connectivity probe nor network call;
and every HTTP failure or body-parse failure is surfaced as an empty result
rather than an exception. -/
theorem searchCities_short_query_and_errors (isOnline : Bool) (recent : List City)
    (response : GeoHttp) (query : String) :
    (query.length < 2 → searchCities isOnline recent response query = ([], []))
    ∧ (searchCities true recent .httpError query).1 = []
    ∧ (searchCities true recent (.ok none) query).1 = [] := by
  refine ⟨fun h => ?_, ?_, ?_⟩
  · simp [searchCities, h]
  · by_cases h : query.length < 2 <;> simp [searchCities, h]
  · by_cases h : query.length < 2 <;> simp [searchCities, h]

/-- Witness for C9: a one-character query yields no result and no effect;
an HTTP failure on a real query yields the empty list. -/
theorem searchCities_short_query_and_errors_witness :
    searchCities true [] (.ok (some [demoCity])) "a" = ([], [])
    ∧ (searchCities true [] .httpError "ab").1 = [] :=
  ⟨(searchCities_short_query_and_errors true [] (.ok (some [demoCity])) "a").1
      (by decide),
   (searchCities_short_query_and_errors true [] .httpError "ab").2.1⟩

/-- C10: a successful `fetchWeatherFromApi(city)` builds its snapshot's
`city`, `lat`, `lon`, and `country` fields from the requested `City`, never
from the provider's response. -/
theorem fetchWeatherFromApi_preserves_city_identity (nowIso : String)
    (fmt : Nat → String) (city : City) (currentData : CurrentData)
    (forecastData : List ForecastApiEntry) :
    (fetchWeatherResult nowIso fmt city currentData forecastData).city = city.name
    ∧ (fetchWeatherResult nowIso fmt city currentData forecastData).lat = some city.lat
    ∧ (fetchWeatherResult nowIso fmt city currentData forecastData).lon = some city.lon
    ∧ (fetchWeatherResult nowIso fmt city currentData forecastData).country
        = some city.country :=
  ⟨rfl, rfl, rfl, rfl⟩
